import Mathlib

/-!
Verification of the background-task supervisor and the client-update
utility of the rathena-AI-world repository.

The supervisor (`BackgroundTasksService` in `services/background_tasks.py`)
is exercised by `tests/unit/test_background_tasks.py`; the implementation
file itself is not part of the source tree we were given, so the model
below is built from the specification's description of the Supervisor,
LoopRunner and the three tick bodies, checked for consistency with the
unit tests.  The client-update utility
(`tools/update_client_simplified.py`) is present in full and is embedded
directly.
-/

namespace RathenaAIWorld

/-! ## Supervisor state model -/

/-- Modelled from the spec: the opaque handle a Supervisor records for one
spawned loop (`services/background_tasks.py` is missing from the source
tree; only its unit tests are present).  The spec's data model calls it "an
opaque cancellable unit of concurrent execution"; we track the loop's name,
whether its most recent tick failed, and whether it has been cancelled. -/
structure TaskHandle where
  loopName : String
  lastTickFailed : Bool
  cancelled : Bool
deriving Repr, DecidableEq

/-- Modelled from the spec: an immutable loop specification
`{ name, interval, tickFn }`.  The tick function itself is modelled
separately (see `loopStep` and the tick bodies below). -/
structure LoopSpec where
  name : String
  interval : Nat
deriving Repr, DecidableEq

/-- Modelled from the spec: the Supervisor's state, `running : bool` plus an
ordered sequence of task handles exclusively owned by the Supervisor. -/
structure BackgroundTasksService where
  running : Bool
  tasks : List TaskHandle
deriving Repr, DecidableEq

/-- Modelled from the spec: the Supervisor is constructed with
`running = false` and `tasks` empty. -/
def BackgroundTasksService.init : BackgroundTasksService :=
  { running := false, tasks := [] }

/-- The three configured loops: broadcast, session health, cleanup.  The
spec leaves the exact intervals open; the values below are placeholders and
no theorem depends on them. -/
def configuredLoops : List LoopSpec :=
  [{ name := "npc_broadcast", interval := 30 },
   { name := "session_health", interval := 60 },
   { name := "cleanup", interval := 300 }]

/-- Spawning a loop via LoopRunner yields a fresh handle for it. -/
def spawnHandle (spec : LoopSpec) : TaskHandle :=
  { loopName := spec.name, lastTickFailed := false, cancelled := false }

/-- Modelled from the spec: `start()` — if `running == true`, no-op;
otherwise, for each configured LoopSpec, spawn a concurrent execution of
that loop, append its handle to `tasks`, then set `running = true`. -/
def BackgroundTasksService.start (specs : List LoopSpec)
    (s : BackgroundTasksService) : BackgroundTasksService :=
  if s.running then s
  else { running := true, tasks := s.tasks ++ specs.map spawnHandle }

/-- Marking a handle as cancelled, as `stop()` does to every handle. -/
def cancelHandle (t : TaskHandle) : TaskHandle :=
  { t with cancelled := true }

/-- Modelled from the spec: `stop()` — if `running == false`, no-op and
return immediately; otherwise set `running = false` first, issue
cancellation to every handle in `tasks`, await their termination
(cancellation-induced termination counts as success, any other failure is
only logged), then clear `tasks`.  The function is total: `stop()` never
raises to its caller. -/
def BackgroundTasksService.stop (s : BackgroundTasksService) :
    BackgroundTasksService :=
  if s.running = false then s
  else
    let s1 := { s with running := false }
    let s2 := { s1 with tasks := s1.tasks.map cancelHandle }
    { s2 with tasks := [] }

/-! ## Tick events observed by the Supervisor

Between `start()` and `stop()` the loops tick autonomously.  A tick of
loop `i` either succeeds or fails; per the spec a failure is isolated to
its own tick and loop and never touches the Supervisor's `running` flag or
the set of handles. -/

/-- One observable tick event at Supervisor level: loop `i` completed a
tick, successfully or with a caught failure. -/
inductive TickEvent where
  | tickOk (i : Nat)
  | tickFail (i : Nat) (err : String)
deriving Repr, DecidableEq

/-- Replace the element at index `i` by `f` of it (out-of-range is a
no-op). -/
def modifyAt {α : Type} (f : α → α) : List α → Nat → List α
  | [], _ => []
  | x :: xs, 0 => f x :: xs
  | x :: xs, n + 1 => x :: modifyAt f xs n

/-- Modelled from the spec: the effect of one tick event on the Supervisor
state.  A tick only records its outcome on its own loop's handle; it never
changes `running` and never adds or removes handles. -/
def applyTick (s : BackgroundTasksService) (ev : TickEvent) :
    BackgroundTasksService :=
  match ev with
  | .tickOk i =>
      { s with tasks := modifyAt (fun t => { t with lastTickFailed := false }) s.tasks i }
  | .tickFail i _ =>
      { s with tasks := modifyAt (fun t => { t with lastTickFailed := true }) s.tasks i }

/-- A whole history of tick events applied in order. -/
def applyTicks (s : BackgroundTasksService) (evs : List TickEvent) :
    BackgroundTasksService :=
  evs.foldl applyTick s

/-! ## Basic lemmas about the Supervisor model -/

theorem modifyAt_length {α : Type} (f : α → α) :
    ∀ (xs : List α) (i : Nat), (modifyAt f xs i).length = xs.length := by
  intro xs
  induction xs with
  | nil => intro i; rfl
  | cons x xs ih =>
      intro i
      cases i with
      | zero => rfl
      | succ n => simp [modifyAt, ih n]

theorem applyTick_running (s : BackgroundTasksService) (ev : TickEvent) :
    (applyTick s ev).running = s.running := by
  cases ev <;> rfl

theorem applyTick_tasks_length (s : BackgroundTasksService) (ev : TickEvent) :
    (applyTick s ev).tasks.length = s.tasks.length := by
  cases ev <;> simp [applyTick, modifyAt_length]

theorem applyTicks_running (evs : List TickEvent) :
    ∀ s : BackgroundTasksService, (applyTicks s evs).running = s.running := by
  induction evs with
  | nil => intro s; rfl
  | cons ev evs ih =>
      intro s
      have h := ih (applyTick s ev)
      simp only [applyTicks, List.foldl_cons] at *
      rw [h, applyTick_running]

theorem applyTicks_tasks_length (evs : List TickEvent) :
    ∀ s : BackgroundTasksService,
      (applyTicks s evs).tasks.length = s.tasks.length := by
  induction evs with
  | nil => intro s; rfl
  | cons ev evs ih =>
      intro s
      have h := ih (applyTick s ev)
      simp only [applyTicks, List.foldl_cons] at *
      rw [h, applyTick_tasks_length]

theorem start_running (specs : List LoopSpec) (s : BackgroundTasksService) :
    (s.start specs).running = true := by
  unfold BackgroundTasksService.start
  by_cases h : s.running
  · simp [h]
  · simp [h]

/-! ## LoopRunner

Modelled from the spec: a LoopRunner repeatedly invokes its tick function;
while not cancelled it invokes `tickFn()`, and if the tick fails it reports
the failure and continues with the next iteration; once cancellation is
observed it exits promptly without starting a new tick.  We model the
schedule a single loop experiences as a list of events: either a tick
(with its success-or-error outcome, supplied by the environment) or the
arrival of the cancellation signal. -/

/-- One event in a single loop's life: a tick with its outcome, or the
cancellation signal. -/
inductive LoopEvent where
  | tick (r : Except String Unit)
  | cancel
deriving Repr

/-- The observable state of one LoopRunner: how many ticks it has invoked,
how many tick failures it has logged, and whether it has terminated. -/
structure LoopState where
  ticksInvoked : Nat
  errorsLogged : Nat
  terminated : Bool
deriving Repr, DecidableEq

/-- Modelled from the spec: one step of the LoopRunner algorithm.  A
terminated loop does nothing.  Otherwise a successful tick is counted; a
failed tick is counted and its failure logged, and the loop continues (it
does not terminate); the cancellation signal terminates the loop. -/
def loopStep (st : LoopState) (ev : LoopEvent) : LoopState :=
  if st.terminated then st
  else
    match ev with
    | .tick (.ok _) => { st with ticksInvoked := st.ticksInvoked + 1 }
    | .tick (.error _) =>
        { st with ticksInvoked := st.ticksInvoked + 1,
                  errorsLogged := st.errorsLogged + 1 }
    | .cancel => { st with terminated := true }

/-- The initial state of a LoopRunner. -/
def loopInit : LoopState :=
  { ticksInvoked := 0, errorsLogged := 0, terminated := false }

/-- Running a whole schedule of events through one LoopRunner. -/
def loopRunner (evs : List LoopEvent) : LoopState :=
  evs.foldl loopStep loopInit

/-- The three loops run independently: each loop's state is the run of its
own schedule. -/
def runLoops (scheds : List (List LoopEvent)) : List LoopState :=
  scheds.map loopRunner

/-- An event is a tick event (as opposed to the cancellation signal). -/
def LoopEvent.isTick : LoopEvent → Bool
  | .tick _ => true
  | .cancel => false

/-! ## NpcBroadcastTick

Modelled from the spec: each invocation re-reads the AI-service feature
flag from configuration at tick time.  If the flag is disabled the tick is
a no-op success; if enabled, the AI-broadcast collaborator is invoked and
any collaborator failure is caught and returned as a failed result. -/

/-- The observable outcome of one broadcast tick: whether the broadcast
collaborator was invoked, and the tick's result. -/
structure BroadcastOutcome where
  broadcastInvoked : Bool
  result : Except String Unit
deriving Repr

/-- Modelled from the spec: one broadcast tick, given the feature-flag
value read at tick time and the outcome the collaborator would produce if
invoked. -/
def npcBroadcastTick (aiServiceEnabled : Bool)
    (broadcast : Except String Unit) : BroadcastOutcome :=
  if aiServiceEnabled = false then
    { broadcastInvoked := false, result := .ok () }
  else
    match broadcast with
    | .ok _ => { broadcastInvoked := true, result := .ok () }
    | .error e => { broadcastInvoked := true, result := .error e }

/-- Modelled from the spec: the broadcast loop over time.  `flags t` is
the configuration's feature-flag value at the time of tick `t`, and
`broadcasts t` the collaborator outcome at tick `t`; the tick at time `t`
reads `flags t`, never a value cached at loop start. -/
def broadcastLoop (flags : Nat → Bool) (broadcasts : Nat → Except String Unit)
    (t : Nat) : BroadcastOutcome :=
  npcBroadcastTick (flags t) (broadcasts t)

/-! ## CleanupTick

Modelled from the spec: a cleanup tick acquires a scoped database session,
invokes the stale-session purge against it, and the scope guarantees
release on every exit path, success or failure. -/

/-- Resource/collaborator events of one cleanup tick, in order. -/
inductive ResEvent where
  | acquireSession
  | purgeCall
  | releaseSession
deriving Repr, DecidableEq

/-- A traced computation: the ordered events it performed plus its
result. -/
def Traced (α : Type) : Type := List ResEvent × Except String α

/-- Modelled from the spec: the scoped-session bracket.  It acquires the
session, runs the body, and releases the session on every exit path —
also when the body's result is a failure. -/
def withScopedSession {α : Type} (body : Traced α) : Traced α :=
  (ResEvent.acquireSession :: body.1 ++ [ResEvent.releaseSession], body.2)

/-- Modelled from the spec: the stale-session purge call against the
scoped session; `outcome` is the purged count on success or the
database-layer error on failure. -/
def purgeStaleSessions (outcome : Except String Nat) : Traced Nat :=
  ([ResEvent.purgeCall], outcome)

/-- Modelled from the spec: one cleanup tick — acquire a scoped session,
run the purge inside the scope, return the purge result. -/
def cleanupTick (outcome : Except String Nat) : Traced Nat :=
  withScopedSession (purgeStaleSessions outcome)

/-! ## Client updater (`tools/update_client_simplified.py`)

A path is its list of components; the filesystem is the set of existing
files and existing directories.  `Path.exists()` is true for both files
and directories.  `shutil.copy2` succeeds when the source is an existing
regular file and the destination's parent directory exists, and raises
otherwise (raises are the `Option.none` outcome — the Python code catches
them and turns them into a `False` return). -/

/-- A filesystem path, as its list of components. -/
abbrev FPath : Type := List String

/-- The filesystem: existing regular files and existing directories. -/
structure FS where
  files : List FPath
  dirs : List FPath
deriving DecidableEq

/-- `Path.exists()`: the path exists as a file or as a directory. -/
def pathExists (fs : FS) (p : FPath) : Bool :=
  fs.files.contains p || fs.dirs.contains p

/-- `Path.mkdir(parents=True)`: create the directory and all its missing
ancestors. -/
def mkdirParents (fs : FS) (p : FPath) : FS :=
  { fs with dirs := List.inits p ++ fs.dirs }

/-- `shutil.copy2(src, dest)`: succeeds (adding `dest` as a file) when
`src` is an existing regular file and `dest`'s parent directory exists;
otherwise it raises, modelled as `none`. -/
def copy2 (fs : FS) (src dest : FPath) : Option FS :=
  if fs.files.contains src && fs.dirs.contains (List.dropLast dest) then
    some { fs with files := dest :: fs.files }
  else none

/-- `p.relative_to(base)`: the components of `p` past `base` when `base`
leads `p`, otherwise a `ValueError`, modelled as `none`. -/
def relativeTo (p base : FPath) : Option FPath :=
  if List.isPrefixOf base p then some (List.drop (List.length base) p)
  else none

/-- The updater object: `client_path` from the command line, `backup_dir`
built from the timestamp at construction time. -/
structure SimplifiedClientUpdater where
  clientPath : FPath
  backupDir : FPath
deriving DecidableEq

/-- `SimplifiedClientUpdater.__init__`: `backup_dir` is
`./backup/<timestamp>`. -/
def SimplifiedClientUpdater.init (clientPath : FPath) (timestamp : String) :
    SimplifiedClientUpdater :=
  { clientPath := clientPath, backupDir := ["backup", timestamp] }

/-- `self.system_path = self.client_path / "System"`. -/
def SimplifiedClientUpdater.systemPath (u : SimplifiedClientUpdater) : FPath :=
  u.clientPath ++ ["System"]

/-- `self.dll_files`. -/
def dll_files : List String :=
  ["ai_client.dll", "ai_network.dll", "ai_resource.dll"]

/-- `self.config_files`. -/
def config_files : List String :=
  ["ai_client.ini", "ai_mapping.ini"]

/-- `self.source_dll_dir = Path("./dlls")`. -/
def source_dll_dir : FPath := ["dlls"]

/-- `self.source_config_dir = Path("./configs")`. -/
def source_config_dir : FPath := ["configs"]

/-- `_create_backup`: if the file does not exist, return `True` at once;
otherwise copy it under `backup_dir` (creating the backup parent
directory), returning `False` if anything raises. -/
def SimplifiedClientUpdater.createBackup (u : SimplifiedClientUpdater)
    (fs : FS) (filePath : FPath) : Bool × FS :=
  if pathExists fs filePath = false then (true, fs)
  else
    match relativeTo filePath u.clientPath with
    | none => (false, fs)
    | some rel =>
        let backupPath := u.backupDir ++ rel
        let fs1 := mkdirParents fs (List.dropLast backupPath)
        match copy2 fs1 filePath backupPath with
        | none => (false, fs1)
        | some fs2 => (true, fs2)

/-- `_verify_client_directory`: the client directory exists and contains
`data.grf` and `rdata.grf`. -/
def SimplifiedClientUpdater.verifyClientDirectory
    (u : SimplifiedClientUpdater) (fs : FS) : Bool :=
  pathExists fs u.clientPath &&
    (["data.grf", "rdata.grf"].all fun f => pathExists fs (u.clientPath ++ [f]))

/-- `_create_system_directory`: create `System` under the client directory
if nothing by that name exists yet. -/
def SimplifiedClientUpdater.createSystemDirectory
    (u : SimplifiedClientUpdater) (fs : FS) : Bool × FS :=
  if pathExists fs u.systemPath = false then (true, mkdirParents fs u.systemPath)
  else (true, fs)

/-- The shared body of `_install_dll_files` / `_install_config_files`: for
each name, require the source to exist, back up the existing destination
(ignoring the backup's result, as the Python code does), then copy the
source over the destination; a missing source or a raising copy yields
`False`. -/
def installFileList (u : SimplifiedClientUpdater) (fs : FS)
    (srcDir destDir : FPath) : List String → Bool × FS
  | [] => (true, fs)
  | n :: rest =>
      let source := srcDir ++ [n]
      let dest := destDir ++ [n]
      if pathExists fs source = false then (false, fs)
      else
        let fs1 := (u.createBackup fs dest).2
        match copy2 fs1 source dest with
        | none => (false, fs1)
        | some fs2 => installFileList u fs2 srcDir destDir rest

/-- `_install_dll_files`: install every DLL into the client directory. -/
def SimplifiedClientUpdater.installDllFiles (u : SimplifiedClientUpdater)
    (fs : FS) : Bool × FS :=
  installFileList u fs source_dll_dir u.clientPath dll_files

/-- `_install_config_files`: install every config file into the System
directory. -/
def SimplifiedClientUpdater.installConfigFiles (u : SimplifiedClientUpdater)
    (fs : FS) : Bool × FS :=
  installFileList u fs source_config_dir u.systemPath config_files

/-- `_verify_installation`: every DLL exists in the client directory and
every config file in the System directory. -/
def SimplifiedClientUpdater.verifyInstallation (u : SimplifiedClientUpdater)
    (fs : FS) : Bool :=
  (dll_files.all fun f => pathExists fs (u.clientPath ++ [f])) &&
    (config_files.all fun f => pathExists fs (u.systemPath ++ [f]))

/-- `update`: verify the client directory, create the System directory,
install the DLLs, install the configs, verify the installation; the first
failing step aborts with `False`. -/
def SimplifiedClientUpdater.update (u : SimplifiedClientUpdater) (fs : FS) :
    Bool × FS :=
  if u.verifyClientDirectory fs = false then (false, fs)
  else
    let r1 := u.createSystemDirectory fs
    if r1.1 = false then (false, r1.2)
    else
      let r2 := u.installDllFiles r1.2
      if r2.1 = false then (false, r2.2)
      else
        let r3 := u.installConfigFiles r2.2
        if r3.1 = false then (false, r3.2)
        else if u.verifyInstallation r3.2 = false then (false, r3.2)
        else (true, r3.2)

/-! ## Claim theorems -/

/-- C1: for every Supervisor on which `start()` has been called, a
subsequent `stop()` leaves the state with `tasks` empty and
`running = false`, unconditionally — whatever tick events (including
failures, mid-tick or otherwise) occurred in between. -/
theorem c1_stop_after_start_clears (s : BackgroundTasksService)
    (specs : List LoopSpec) (evs : List TickEvent) :
    (applyTicks (s.start specs) evs).stop.tasks = [] ∧
      (applyTicks (s.start specs) evs).stop.running = false := by
  have hrun : (applyTicks (s.start specs) evs).running = true := by
    rw [applyTicks_running, start_running]
  unfold BackgroundTasksService.stop
  simp [hrun]

/-- C2: calling `start()` from the stopped state (running false, tasks
empty) spawns one loop per configured spec, records exactly as many
handles in `tasks`, and sets `running = true`; the service is configured
with 3 loops. -/
theorem c2_start_spawns_all (s : BackgroundTasksService)
    (specs : List LoopSpec) (h : s.running = false) (h2 : s.tasks = []) :
    (s.start specs).running = true ∧
      (s.start specs).tasks = specs.map spawnHandle ∧
      (s.start specs).tasks.length = specs.length ∧
      configuredLoops.length = 3 := by
  unfold BackgroundTasksService.start
  refine ⟨by simp [h], by simp [h, h2], by simp [h, h2], rfl⟩

theorem c2_start_spawns_all_witness :
    BackgroundTasksService.init.running = false ∧
    BackgroundTasksService.init.tasks = [] ∧
    ((BackgroundTasksService.init.start configuredLoops).running = true ∧
      (BackgroundTasksService.init.start configuredLoops).tasks =
        configuredLoops.map spawnHandle ∧
      (BackgroundTasksService.init.start configuredLoops).tasks.length =
        configuredLoops.length ∧
      configuredLoops.length = 3) :=
  ⟨rfl, rfl, c2_start_spawns_all BackgroundTasksService.init configuredLoops rfl rfl⟩

/-- C3: `start()` is idempotent — on a Supervisor that is already running,
`start()` is a no-op: no additional loops are spawned and the whole state,
in particular the `tasks` sequence, is unchanged. -/
theorem c3_start_idempotent (s : BackgroundTasksService)
    (specs : List LoopSpec) (h : s.running = true) :
    s.start specs = s := by
  unfold BackgroundTasksService.start
  simp [h]

theorem c3_start_idempotent_witness :
    (BackgroundTasksService.init.start configuredLoops).running = true ∧
      (BackgroundTasksService.init.start configuredLoops).start configuredLoops =
        BackgroundTasksService.init.start configuredLoops :=
  ⟨rfl, c3_start_idempotent (BackgroundTasksService.init.start configuredLoops)
    configuredLoops rfl⟩

/-- The Supervisor's state invariant: `tasks` is empty whenever the
service is stopped, and holds one handle per configured loop whenever it
is running. -/
def SupInv (n : Nat) (s : BackgroundTasksService) : Prop :=
  (s.running = false → s.tasks.length = 0) ∧
    (s.running = true → s.tasks.length = n)

/-- C4: the state invariant — `tasks.length = 0` when `running = false`
and `tasks.length` equal to the number of configured loops when
`running = true` — holds at construction and is preserved by `start()`
and by `stop()`. -/
theorem c4_invariant_preserved (n : Nat) (specs : List LoopSpec)
    (s : BackgroundTasksService) (hn : specs.length = n) :
    SupInv n BackgroundTasksService.init ∧
      (SupInv n s → SupInv n (s.start specs)) ∧
      (SupInv n s → SupInv n s.stop) := by
  refine ⟨⟨fun _ => rfl, fun hr => ?_⟩, fun hs => ?_, fun hs => ?_⟩
  · simp [BackgroundTasksService.init] at hr
  · unfold BackgroundTasksService.start
    by_cases h : s.running
    · simpa [h] using hs
    · constructor
      · intro hr
        simp [h] at hr
      · intro _
        have h0 : s.tasks.length = 0 := hs.1 (by simpa using h)
        simp [h, h0, hn]
  · unfold BackgroundTasksService.stop
    by_cases h : s.running
    · simp [h]
      exact ⟨fun _ => rfl, fun hr => by cases hr⟩
    · simpa [eq_false_of_ne_true h] using hs

theorem c4_invariant_preserved_witness :
    configuredLoops.length = 3 ∧
      (SupInv 3 BackgroundTasksService.init ∧
        (SupInv 3 BackgroundTasksService.init →
          SupInv 3 (BackgroundTasksService.init.start configuredLoops)) ∧
        (SupInv 3 BackgroundTasksService.init →
          SupInv 3 BackgroundTasksService.init.stop)) :=
  ⟨rfl, c4_invariant_preserved 3 configuredLoops BackgroundTasksService.init rfl⟩

/-- C8: `stop()` on a Supervisor that is not running (a never-started one
included) is a no-op that changes nothing and leaves `running = false`;
`stop` is a total function, so it never raises to its caller. -/
theorem c8_stop_not_running (s : BackgroundTasksService)
    (h : s.running = false) :
    s.stop = s ∧ s.stop.running = false := by
  unfold BackgroundTasksService.stop
  simp [h]

theorem c8_stop_not_running_witness :
    BackgroundTasksService.init.running = false ∧
      (BackgroundTasksService.init.stop = BackgroundTasksService.init ∧
        BackgroundTasksService.init.stop.running = false) :=
  ⟨rfl, c8_stop_not_running BackgroundTasksService.init rfl⟩

/-- A schedule carries no cancellation signal: every event is a tick. -/
def noCancel (evs : List LoopEvent) : Bool :=
  evs.all LoopEvent.isTick

/-- An event is a tick whose outcome is a failure. -/
def LoopEvent.isFailedTick : LoopEvent → Bool
  | .tick (.error _) => true
  | _ => false

/-- The number of failing ticks in a schedule. -/
def countFailures (evs : List LoopEvent) : Nat :=
  (evs.filter LoopEvent.isFailedTick).length

theorem loopRun_noCancel (evs : List LoopEvent) :
    ∀ st : LoopState, noCancel evs = true → st.terminated = false →
      (evs.foldl loopStep st).ticksInvoked = st.ticksInvoked + evs.length ∧
      (evs.foldl loopStep st).errorsLogged = st.errorsLogged + countFailures evs ∧
      (evs.foldl loopStep st).terminated = false := by
  induction evs with
  | nil => intro st _ hterm; simpa [countFailures] using hterm
  | cons ev evs ih =>
      intro st hnc hterm
      have hev : ev.isTick = true ∧ noCancel evs = true := by
        simpa [noCancel, List.all_cons] using hnc
      cases ev with
      | cancel => simp [LoopEvent.isTick] at hev
      | tick r =>
          cases r with
          | ok v =>
              have hstep : loopStep st (.tick (.ok v)) =
                  { ticksInvoked := st.ticksInvoked + 1,
                    errorsLogged := st.errorsLogged,
                    terminated := false } := by
                simp [loopStep, hterm]
              have := ih { ticksInvoked := st.ticksInvoked + 1,
                           errorsLogged := st.errorsLogged,
                           terminated := false } hev.2 rfl
              simp only [List.foldl_cons, hstep]
              refine ⟨?_, ?_, this.2.2⟩
              · rw [this.1]
                simp only [List.length_cons]
                omega
              · rw [this.2.1]
                simp [countFailures, List.filter_cons, LoopEvent.isFailedTick]
          | error e =>
              have hstep : loopStep st (.tick (.error e)) =
                  { ticksInvoked := st.ticksInvoked + 1,
                    errorsLogged := st.errorsLogged + 1,
                    terminated := false } := by
                simp [loopStep, hterm]
              have := ih { ticksInvoked := st.ticksInvoked + 1,
                           errorsLogged := st.errorsLogged + 1,
                           terminated := false } hev.2 rfl
              simp only [List.foldl_cons, hstep]
              refine ⟨?_, ?_, this.2.2⟩
              · rw [this.1]
                simp only [List.length_cons]
                omega
              · rw [this.2.1]
                simp only [countFailures, List.filter_cons, LoopEvent.isFailedTick,
                  if_pos, List.length_cons]
                omega

/-- C5: a tick failure is caught at the LoopRunner boundary and only
logged.  Until cancellation arrives, every scheduled tick of a loop is
invoked — failing ticks included — the loop never terminates, and each
failure only increments the log; sibling loops' runs depend only on their
own schedules; and at Supervisor level a tick failure never changes
`running`. -/
theorem c5_tick_failures_isolated (evs : List LoopEvent)
    (h : noCancel evs = true) :
    ((loopRunner evs).ticksInvoked = evs.length ∧
      (loopRunner evs).errorsLogged = countFailures evs ∧
      (loopRunner evs).terminated = false) ∧
    (∀ schedA schedA' schedB : List LoopEvent,
      (runLoops [schedA, schedB]).getLast? =
        (runLoops [schedA', schedB]).getLast?) ∧
    (∀ (s : BackgroundTasksService) (i : Nat) (e : String),
      (applyTick s (TickEvent.tickFail i e)).running = s.running) := by
  refine ⟨?_, ?_, ?_⟩
  · have := loopRun_noCancel evs loopInit h rfl
    simpa [loopRunner, loopInit] using this
  · intro schedA schedA' schedB
    simp [runLoops]
  · intro s i e
    rfl

theorem c5_tick_failures_isolated_witness :
    noCancel [LoopEvent.tick (Except.error "tick boom"),
              LoopEvent.tick (Except.ok ()),
              LoopEvent.tick (Except.error "again"),
              LoopEvent.tick (Except.ok ())] = true ∧
    (((loopRunner [LoopEvent.tick (Except.error "tick boom"),
                   LoopEvent.tick (Except.ok ()),
                   LoopEvent.tick (Except.error "again"),
                   LoopEvent.tick (Except.ok ())]).ticksInvoked =
        [LoopEvent.tick (Except.error "tick boom"),
         LoopEvent.tick (Except.ok ()),
         LoopEvent.tick (Except.error "again"),
         LoopEvent.tick (Except.ok ())].length ∧
      (loopRunner [LoopEvent.tick (Except.error "tick boom"),
                   LoopEvent.tick (Except.ok ()),
                   LoopEvent.tick (Except.error "again"),
                   LoopEvent.tick (Except.ok ())]).errorsLogged =
        countFailures [LoopEvent.tick (Except.error "tick boom"),
                       LoopEvent.tick (Except.ok ()),
                       LoopEvent.tick (Except.error "again"),
                       LoopEvent.tick (Except.ok ())] ∧
      (loopRunner [LoopEvent.tick (Except.error "tick boom"),
                   LoopEvent.tick (Except.ok ()),
                   LoopEvent.tick (Except.error "again"),
                   LoopEvent.tick (Except.ok ())]).terminated = false) ∧
    (∀ schedA schedA' schedB : List LoopEvent,
      (runLoops [schedA, schedB]).getLast? =
        (runLoops [schedA', schedB]).getLast?) ∧
    (∀ (s : BackgroundTasksService) (i : Nat) (e : String),
      (applyTick s (TickEvent.tickFail i e)).running = s.running)) :=
  ⟨rfl, c5_tick_failures_isolated _ rfl⟩

/-- C6: every cleanup tick acquires its scoped database session exactly
once and releases it exactly once, with the release the last event before
the tick returns — on the success path and on the purge-failure path
alike — and the tick's result is exactly the purge outcome. -/
theorem c6_cleanup_releases_session (outcome : Except String Nat) :
    (cleanupTick outcome).1.count ResEvent.releaseSession = 1 ∧
      (cleanupTick outcome).1.count ResEvent.acquireSession = 1 ∧
      (cleanupTick outcome).1.getLast? = some ResEvent.releaseSession ∧
      (cleanupTick outcome).2 = outcome := by
  refine ⟨?_, ?_, ?_, rfl⟩ <;> rfl

/-- C7: a broadcast tick reads the feature flag at tick time: when the
flag read at tick `t` is disabled the tick is a no-op success that never
invokes the broadcast collaborator and never fails, and the outcome of
tick `t` depends only on the flag's value at `t` — two flag histories that
agree at `t` (however much they differ at loop start) give the same
outcome. -/
theorem c7_broadcast_flag_fresh (flags g : Nat → Bool)
    (broadcasts : Nat → Except String Unit) (t : Nat)
    (hg : g t = flags t) (h : flags t = false) :
    broadcastLoop flags broadcasts t =
      { broadcastInvoked := false, result := Except.ok () } ∧
      broadcastLoop g broadcasts t = broadcastLoop flags broadcasts t := by
  constructor
  · simp [broadcastLoop, npcBroadcastTick, h]
  · simp [broadcastLoop, hg]

theorem c7_broadcast_flag_fresh_witness :
    (fun (_ : Nat) => false) 1 = (fun t => decide (t = 0)) 1 ∧
    (fun t => decide (t = 0)) 1 = false ∧
    (broadcastLoop (fun t => decide (t = 0)) (fun _ => Except.error "down") 1 =
        { broadcastInvoked := false, result := Except.ok () } ∧
      broadcastLoop (fun _ => false) (fun _ => Except.error "down") 1 =
        broadcastLoop (fun t => decide (t = 0)) (fun _ => Except.error "down") 1) :=
  ⟨rfl, rfl, c7_broadcast_flag_fresh (fun t => decide (t = 0)) (fun _ => false)
    (fun _ => Except.error "down") 1 rfl rfl⟩

theorem verifyClientDirectory_false (u : SimplifiedClientUpdater) (fs : FS)
    (h : pathExists fs u.clientPath = false ∨
      pathExists fs (u.clientPath ++ ["data.grf"]) = false ∨
      pathExists fs (u.clientPath ++ ["rdata.grf"]) = false) :
    u.verifyClientDirectory fs = false := by
  unfold SimplifiedClientUpdater.verifyClientDirectory
  rcases h with h | h | h <;> simp [h]

/-- C9: when the client directory fails verification (the directory is
missing, or `data.grf` or `rdata.grf` is missing from it), `update()`
returns `False` with the filesystem untouched: no System directory is
created, no DLL or config file is copied, and no backup is made. -/
theorem c9_update_aborts_on_bad_client (u : SimplifiedClientUpdater)
    (fs : FS)
    (h : pathExists fs u.clientPath = false ∨
      pathExists fs (u.clientPath ++ ["data.grf"]) = false ∨
      pathExists fs (u.clientPath ++ ["rdata.grf"]) = false) :
    u.update fs = (false, fs) := by
  have hv := verifyClientDirectory_false u fs h
  unfold SimplifiedClientUpdater.update
  simp [hv]

theorem c9_update_aborts_on_bad_client_witness :
    (pathExists { files := [], dirs := [] }
        (SimplifiedClientUpdater.init ["ro-client"] "20250101").clientPath = false ∨
      pathExists { files := [], dirs := [] }
        ((SimplifiedClientUpdater.init ["ro-client"] "20250101").clientPath ++
          ["data.grf"]) = false ∨
      pathExists { files := [], dirs := [] }
        ((SimplifiedClientUpdater.init ["ro-client"] "20250101").clientPath ++
          ["rdata.grf"]) = false) ∧
    (SimplifiedClientUpdater.init ["ro-client"] "20250101").update
        { files := [], dirs := [] } =
      (false, { files := [], dirs := [] }) :=
  ⟨Or.inl rfl,
    c9_update_aborts_on_bad_client (SimplifiedClientUpdater.init ["ro-client"] "20250101")
      { files := [], dirs := [] } (Or.inl rfl)⟩

/-- C10: `_create_backup` on a path that does not exist returns `True`
and leaves the filesystem untouched — no copy, no backup directory — so a
first-time installation with no file to back up proceeds without error. -/
theorem c10_backup_missing_file_trivial (u : SimplifiedClientUpdater)
    (fs : FS) (p : FPath) (h : pathExists fs p = false) :
    u.createBackup fs p = (true, fs) := by
  unfold SimplifiedClientUpdater.createBackup
  simp [h]

theorem c10_backup_missing_file_trivial_witness :
    pathExists { files := [], dirs := [["ro-client"]] }
        (["ro-client", "ai_client.dll"] : FPath) = false ∧
    (SimplifiedClientUpdater.init ["ro-client"] "20250101").createBackup
        { files := [], dirs := [["ro-client"]] } ["ro-client", "ai_client.dll"] =
      (true, { files := [], dirs := [["ro-client"]] }) :=
  ⟨rfl, c10_backup_missing_file_trivial
    (SimplifiedClientUpdater.init ["ro-client"] "20250101")
    { files := [], dirs := [["ro-client"]] } ["ro-client", "ai_client.dll"] rfl⟩

end RathenaAIWorld
